import Mathlib

set_option maxRecDepth 40000

/-!
# Verification of the chectl Helm installer (`src/installers/helm.ts`)

Shallow embedding of the `HelmHelper` class.  External effects (process
execution via `execa`, the Kubernetes client, the file system, `JSON.parse`)
are modelled by an environment that supplies the outcome of each call site;
the control flow, command-string construction and error handling are
transcribed from the TypeScript source.
-/

namespace Chectl

/-- Result object of one `execa` invocation (`{code, stdout, stderr, timedOut}`). -/
structure ExecaResult where
  code : Int
  stdout : String
  stderr : String
  timedOut : Bool
deriving DecidableEq, Repr

/-- A JSON revision value as it appears in `helm history --output json`:
the source compares it with `===` against the string literal `'1'`,
so a string and a number are never equal. -/
inductive Rev
  | str (s : String)
  | num (n : Int)
deriving DecidableEq, Repr

/-- One entry of the parsed helm release history; the source reads only
`jsonOutput[0].revision`. -/
structure HistEntry where
  revision : Rev
deriving DecidableEq, Repr

/-- The mutable Listr context shared by all tasks of one pipeline run.
The only key ever written in the source is `ctx.tlsEmail` (helm.ts line 46). -/
structure PipelineCtx where
  tlsEmail : Option String
deriving DecidableEq, Repr

/-- The CLI flags consumed by `HelmHelper` (immutable installation
configuration). -/
structure Flags where
  chenamespace : String
  domain : String
  cheimage : String
  devfileRegistryUrl : String
  pluginRegistryUrl : String
  multiuser : Bool
  tls : Bool
  templates : String
deriving DecidableEq, Repr

/-- JavaScript template-literal interpolation of a possibly-undefined value:
`undefined` prints as the string `"undefined"`. -/
def jsShow : Option String → String
  | some s => s
  | none => "undefined"

/-- Holds when the string's last character is `/`. -/
def endsSlash (s : String) : Bool :=
  match s.data.getLast? with
  | some c => c == '/'
  | none => false

/-- Holds when the string's first character is `/`. -/
def startsSlash (s : String) : Bool :=
  match s.data with
  | c :: _ => c == '/'
  | [] => false

/-- Model of Node's `path.join` for the argument shapes used in this file
(a directory and a `/`-prefixed relative part): join the two segments with
exactly one `/` between them. -/
def pathJoin (a b : String) : String :=
  if endsSlash a && startsSlash b then a ++ String.mk (b.data.drop 1)
  else if !endsSlash a && !startsSlash b then a ++ "/" ++ b
  else a ++ b

/-- Holds when `a` is a (list) prefix of `b`, as a boolean. -/
def listIsPre : List Char → List Char → Bool
  | [], _ => true
  | _ :: _, [] => false
  | a :: as, b :: bs => a == b && listIsPre as bs

/-- Holds when `n` occurs as a contiguous sublist of `h`, as a boolean. -/
def listInfixB (n : List Char) : List Char → Bool
  | [] => n.isEmpty
  | c :: t => listIsPre n (c :: t) || listInfixB n t

/-- Holds when `hay` contains `needle` as a substring. -/
def strContains (hay needle : String) : Bool :=
  listInfixB needle.data hay.data

end Chectl

namespace Chectl

/-! ## External command runner (`execa`) -/

/-- The environment's answer function for plain `execa(file, args, {timeout})`
calls: given executable, argument vector and timeout, it yields the result
of that process. -/
def RunEnv := String → List String → Nat → ExecaResult

/-- Model of `execa(file, args, {timeout, reject})`: with `reject: false` the
result object is always returned; otherwise a timed-out or non-zero exit
rejects (throws) with a message embedding the command line. -/
def execaCall (run : RunEnv) (file : String) (args : List String)
    (timeout : Nat) (reject : Bool) : Except String ExecaResult :=
  let r := run file args timeout
  if reject && (r.timedOut || r.code != 0) then
    .error ("Command failed: " ++ String.intercalate " " (file :: args))
  else
    .ok r

/-! ## Idempotent resource provisioner (tiller role binding / service
account / service), helm.ts lines 134-179 -/

/-- Source `tillerRoleBindingExist`: `kubectl get clusterrolebinding
add-on-cluster-admin` with `reject: false`; returns `code === 0`. -/
def tillerRoleBindingExist (run : RunEnv) (execTimeout : Nat := 30000) :
    Except String Bool := do
  let r ← execaCall run "kubectl" ["get", "clusterrolebinding", "add-on-cluster-admin"] execTimeout false
  if r.code = 0 then return true else return false

/-- Source `createTillerRoleBinding`: `kubectl create clusterrolebinding ...`
(default `reject`, i.e. throws on failure). -/
def createTillerRoleBinding (run : RunEnv) (execTimeout : Nat := 30000) :
    Except String Unit := do
  let _ ← execaCall run "kubectl"
    ["create", "clusterrolebinding", "add-on-cluster-admin",
     "--clusterrole=cluster-admin", "--serviceaccount=kube-system:default"]
    execTimeout true
  return ()

/-- Source `tillerServiceAccountExist`: `kubectl get serviceaccounts tiller
--namespace kube-system` with `reject: false`; returns `code === 0`. -/
def tillerServiceAccountExist (run : RunEnv) (execTimeout : Nat := 30000) :
    Except String Bool := do
  let r ← execaCall run "kubectl" ["get", "serviceaccounts", "tiller", "--namespace", "kube-system"] execTimeout false
  if r.code = 0 then return true else return false

/-- Source `createTillerServiceAccount` (throws on failure). -/
def createTillerServiceAccount (run : RunEnv) (execTimeout : Nat := 120000) :
    Except String Unit := do
  let _ ← execaCall run "kubectl"
    ["create", "serviceaccount", "tiller", "--namespace", "kube-system"]
    execTimeout true
  return ()

/-- Source `tillerServiceExist`: `kubectl get services tiller-deploy -n kube-system`
with `reject: false`; returns `code === 0`. -/
def tillerServiceExist (run : RunEnv) (execTimeout : Nat := 30000) :
    Except String Bool := do
  let r ← execaCall run "kubectl" ["get", "services", "tiller-deploy", "-n", "kube-system"] execTimeout false
  if r.code = 0 then return true else return false

/-- Source `createTillerService`: `helm init --service-account tiller --wait` with
`reject: false`, then explicit timeout / exit-code checks raising
`E_TIMEOUT` / `E_COMMAND_FAILED`. -/
def createTillerService (run : RunEnv) (execTimeout : Nat := 120000) :
    Except String Unit :=
  let r := run "helm" ["init", "--service-account", "tiller", "--wait"] execTimeout
  let cmd := "helm init --service-account tiller --wait"
  if r.timedOut then
    .error ("Command \"" ++ cmd ++ "\" timed out after " ++ toString execTimeout ++ "ms\nstderr: "
      ++ r.stderr ++ "\nstdout: " ++ r.stdout ++ "\nerror: E_TIMEOUT")
  else if r.code != 0 then
    .error ("Command \"" ++ cmd ++ "\" failed with return code " ++ toString r.code ++ "\nstderr: "
      ++ r.stderr ++ "\nstdout: " ++ r.stdout ++ "\nerror: E_COMMAND_FAILED")
  else
    .ok ()

/-! ## Chart staging (`prepareCheHelmChart`, `updateCheHelmChartDependencies`),
helm.ts lines 181-191 -/

/-- The outcome of one async JavaScript function call: the value its returned
promise settles with, plus any exception thrown outside the promise chain
(e.g. from a bare callback), which Node surfaces as an uncaught exception. -/
structure AsyncOutcome where
  promise : Except String Unit
  uncaught : Option String
deriving Repr

/-- Source `prepareCheHelmChart(flags, cacheDir)`: `await mkdirp(destDir)`, then
`await ncp(srcDir, destDir, {}, cb)`.  `ncp` is callback-style and returns
`undefined`, so the `await` resolves immediately and the function's promise
fulfils regardless of the copy outcome; the callback's
`(err) => { if (err) { throw err } }` runs later inside ncp's own callback
stack, so a copy error becomes an uncaught exception, not a rejection of
this function's promise.  `mkdirpErr`/`copyErr` are the environment's
outcomes for the two external operations. -/
def prepareCheHelmChart (flags : Flags) (cacheDir : String)
    (mkdirpErr copyErr : Option String) : AsyncOutcome :=
  let _srcDir := pathJoin flags.templates "/kubernetes/helm/che/"
  let _destDir := pathJoin cacheDir "/templates/kubernetes/helm/che/"
  match mkdirpErr with
  | some e => { promise := .error e, uncaught := none }
  | none => { promise := .ok (), uncaught := copyErr }

/-- The shell command composed by `updateCheHelmChartDependencies`. -/
def updateDependenciesCommand (cacheDir : String) : String :=
  let destDir := pathJoin cacheDir "/templates/kubernetes/helm/che/"
  "helm dependencies update --skip-refresh " ++ destDir

/-- The environment's answer function for `execa.shell(command, {timeout})`
calls issued outside the upgrade routine. -/
def ShellEnv := String → Nat → ExecaResult

/-- Source `updateCheHelmChartDependencies(cacheDir)`: `execa.shell` with the default
`reject`, so a timed-out or non-zero run throws. -/
def updateCheHelmChartDependencies (shell : ShellEnv) (cacheDir : String)
    (execTimeout : Nat := 120000) : Except String Unit :=
  let r := shell (updateDependenciesCommand cacheDir) execTimeout
  if r.timedOut || r.code != 0 then
    .error ("Command failed: " ++ updateDependenciesCommand cacheDir)
  else
    .ok ()

/-! ### File-system view of staging (for the frame property)

The copy, directory creation and dependency resolution are external
collaborators (the spec treats them only at their interface), so their
write footprint is modelled from the spec; what is verified from the source
is which paths `prepareCheHelmChart` / `updateCheHelmChartDependencies`
hand to them. -/

/-- A file system: a partial map from paths to file contents. -/
def FS := String → Option String

/-- Path `p` lies in the tree rooted at `dir` (the directory string,
including its trailing `/`, is a prefix of the path). -/
def underB (dir p : String) : Bool := listIsPre dir.data p.data

/-- Modelled from the spec: `mkdirp(dest)` recursively creates the missing
ancestor directories of `dest`; it writes only at paths that are prefixes of
`dest` and not yet present, and touches no existing entry. -/
def mkdirpFS (dest : String) (fs : FS) : FS :=
  fun p => if listIsPre p.data dest.data && (fs p).isNone then some "<dir>" else fs p

/-- Modelled from the spec: `ncp(src, dest)` recursively copies the tree under
`src` to the corresponding paths under `dest`; it reads under `src` and
writes only under `dest`. -/
def ncpFS (src dest : String) (fs : FS) : FS :=
  fun p =>
    if underB dest p then
      match fs (src ++ p.drop dest.length) with
      | some content => some content
      | none => fs p
    else fs p

/-- Modelled from the spec: `helm dependencies update <chartDir>` may create or
modify files only under the chart directory it is invoked on; `newDeps` is
the environment's choice of what it writes there. -/
def depUpdateFS (chartDir : String) (newDeps : String → Option String) (fs : FS) : FS :=
  fun p =>
    if underB chartDir p then
      match newDeps p with
      | some content => some content
      | none => fs p
    else fs p

/-- The combined file-system effect of the two staging steps as the source
invokes them: `mkdirp(destDir)`, `ncp(srcDir, destDir)`, then
`helm dependencies update` against `destDir`. -/
def stageChartFS (flags : Flags) (cacheDir : String)
    (newDeps : String → Option String) (fs : FS) : FS :=
  let srcDir := pathJoin flags.templates "/kubernetes/helm/che/"
  let destDir := pathJoin cacheDir "/templates/kubernetes/helm/che/"
  depUpdateFS destDir newDeps (ncpFS srcDir destDir (mkdirpFS destDir fs))

/-! ## Deployment executor and failure recovery (`upgradeCheHelmChart`,
`purgeHelmChart`), helm.ts lines 193-241 -/

/-- The staged chart directory `destDir` used throughout
`upgradeCheHelmChart`. -/
def chartDestDir (cacheDir : String) : String :=
  pathJoin cacheDir "/templates/kubernetes/helm/che/"

/-- The `-f .../values/multi-user.yaml` flag text (helm.ts line 201). -/
def multiUserFlagText (cacheDir : String) : String :=
  "-f " ++ chartDestDir cacheDir ++ "values/multi-user.yaml"

/-- The `-f .../values/tls.yaml` flag text (helm.ts line 206). -/
def tlsFlagText (cacheDir : String) : String :=
  "-f " ++ chartDestDir cacheDir ++ "values/tls.yaml"

/-- The TLS `--set` overrides (helm.ts line 205): ingress domain and the
contact email read from the pipeline context. -/
def tlsSetOptionsText (flags : Flags) (ctx : PipelineCtx) : String :=
  "--set global.cheDomain=" ++ flags.domain
    ++ " --set global.tls.email='" ++ jsShow ctx.tlsEmail ++ "'"

/-- The upgrade-or-install command string composed at helm.ts line 209,
transcribed interpolation slot by interpolation slot. -/
def upgradeCommand (ctx : PipelineCtx) (flags : Flags) (cacheDir : String) : String :=
  let destDir := chartDestDir cacheDir
  let multiUserFlag := if flags.multiuser then multiUserFlagText cacheDir else ""
  let setOptions := if flags.tls then tlsSetOptionsText flags ctx else ""
  let tlsFlag := if flags.tls then tlsFlagText cacheDir else ""
  "helm upgrade --install che --force --namespace " ++ flags.chenamespace
    ++ " --set global.ingressDomain=" ++ flags.domain
    ++ " " ++ setOptions
    ++ " --set cheImage=" ++ flags.cheimage
    ++ " --set global.cheWorkspacesNamespace=" ++ flags.chenamespace
    ++ " --set che.workspace.devfileRegistryUrl=" ++ flags.devfileRegistryUrl
    ++ " --set che.workspace.pluginRegistryUrl=" ++ flags.pluginRegistryUrl
    ++ " " ++ multiUserFlag ++ " " ++ tlsFlag ++ " " ++ destDir

/-- The external commands `upgradeCheHelmChart` can issue, in invocation
order: the shell upgrade command, the history query
(`helm history <release> --output json`), `helm rollback <release> <rev>`,
and `helm delete <release> --purge`. -/
inductive HelmCmd
  | upgrade (cmd : String) (timeout : Nat)
  | history (release : String) (timeout : Nat)
  | rollback (release : String) (rev : Rev) (timeout : Nat)
  | purge (release : String) (timeout : Nat)
deriving DecidableEq, Repr

/-- The ways `upgradeCheHelmChart` can throw. -/
inductive HelmErr
  /-- From `throw new Error('Unable to execute helm command ' + command + ' / ' + stderr)`
  where `command` is the original upgrade command and `stderr` the original
  upgrade's stderr (the inner destructuring at line 217 shadows only `code`
  and `stdout`). -/
  | queryFailed (origCommand : String) (origStderr : String)
  /-- From `throw new Error('Unable to grab helm history:' + err)` when
  `JSON.parse(stdout)` throws. -/
  | parseFailed (err : String)
  /-- Because `jsonOutput[0]` is `undefined` when the parsed history is the empty
  array, so reading `.revision` at line 227 throws a `TypeError` before the
  length guard at line 228 is evaluated. -/
  | typeErrorUndefinedRevision
  /-- Call `execa('helm', ['rollback', ...])` with the default `reject` rejects on
  timeout or non-zero exit. -/
  | rollbackFailed (code : Int) (timedOut : Bool)
  /-- the retry `execa.shell(command, {timeout})` with the default `reject`
  rejects on timeout or non-zero exit. -/
  | retryFailed (command : String) (code : Int) (timedOut : Bool)
deriving DecidableEq, Repr

/-- The message string of each `HelmErr`, following the source's `Error`
messages. -/
def HelmErr.message : HelmErr → String
  | .queryFailed origCommand origStderr =>
      "Unable to execute helm command " ++ origCommand ++ " / " ++ origStderr
  | .parseFailed err => "Unable to grab helm history:" ++ err
  | .typeErrorUndefinedRevision =>
      "TypeError: Cannot read property 'revision' of undefined"
  | .rollbackFailed _ _ => "Command failed: helm rollback"
  | .retryFailed command _ _ => "Command failed: " ++ command

/-- The environment of one `upgradeCheHelmChart` run: the outcome of each
external call site, in source order.  `parseHistory` is the outcome of
`JSON.parse` on the history query's stdout (`none` meaning it threw, with
`parseErrMsg` the thrown error's string form). -/
structure HelmEnv where
  upgradeFirst : ExecaResult
  historyQuery : ExecaResult
  parseHistory : Option (List HistEntry)
  parseErrMsg : String
  rollbackRes : ExecaResult
  purgeRes : ExecaResult
  retryRes : ExecaResult

/-- Source `purgeHelmChart(name)`: `helm delete <name> --purge` with `reject: false`,
so it never throws; only the issued command is observable. -/
def purgeHelmChart (name : String) (execTimeout : Nat := 30000) : HelmCmd :=
  .purge name execTimeout

/-- Source `upgradeCheHelmChart(ctx, flags, cacheDir)` transcribed from helm.ts
lines 193-237.  Returns the trace of issued external commands together with
the function's outcome. -/
def upgradeCheHelmChart (ctx : PipelineCtx) (flags : Flags) (cacheDir : String)
    (env : HelmEnv) (execTimeout : Nat := 120000) :
    List HelmCmd × Except HelmErr Unit :=
  let command := upgradeCommand ctx flags cacheDir
  let first := HelmCmd.upgrade command execTimeout
  let r1 := env.upgradeFirst
  if r1.code = 0 then
    ([first], .ok ())
  else
    -- if process failed: query `helm history <chenamespace> --output json`
    let histCall := HelmCmd.history flags.chenamespace execTimeout
    let r2 := env.historyQuery
    if r2.code != 0 then
      ([first, histCall], .error (.queryFailed command r1.stderr))
    else
      match env.parseHistory with
      | none => ([first, histCall], .error (.parseFailed env.parseErrMsg))
      | some jsonOutput =>
        -- `const revision = jsonOutput[0].revision` precedes the guard
        match jsonOutput with
        | [] => ([first, histCall], .error .typeErrorUndefinedRevision)
        | entry :: _ =>
          let revision := entry.revision
          -- the retry `await execa.shell(command, {timeout})` follows both
          -- recovery branches in the source; it is spelled out in each
          -- branch here
          let retryCall := HelmCmd.upgrade command execTimeout
          let r3 := env.retryRes
          if jsonOutput.length > 0 && revision == Rev.str "1" then
            let calls := [first, histCall, purgeHelmChart flags.chenamespace, retryCall]
            if r3.timedOut || r3.code != 0 then
              (calls, .error (.retryFailed command r3.code r3.timedOut))
            else
              (calls, .ok ())
          else
            let rollbackCall := HelmCmd.rollback flags.chenamespace revision execTimeout
            let r4 := env.rollbackRes
            if r4.timedOut || r4.code != 0 then
              ([first, histCall, rollbackCall], .error (.rollbackFailed r4.code r4.timedOut))
            else if r3.timedOut || r3.code != 0 then
              ([first, histCall, rollbackCall, retryCall],
               .error (.retryFailed command r3.code r3.timedOut))
            else
              ([first, histCall, rollbackCall, retryCall], .ok ())

/-! ## Task pipeline (`startTasks`), helm.ts lines 24-132 -/

/-- The whole external world one pipeline run interacts with: the cluster
client answers (`secretExist`, `getSecret`, `apiVersionExist`), tool
presence, process execution, the file system, and the per-call-site
outcomes of the deployment routine. -/
structure Env where
  helmCommandExists : Bool
  cheTlsSecretExists : Bool
  cheTlsSecretValue : Option String
  certManagerApiExists : Bool
  run : RunEnv
  shell : ShellEnv
  readFile : String → Option String
  mkdirpErr : Option String
  copyErr : Option String
  helm : HelmEnv

/-- Source `createTillerRBAC(templatesPath)`: read
`<templates>/kubernetes/helm/che/tiller-rbac.yaml` (`readFileSync` throws if
missing), pipe it to `kubectl apply -f -` via `execa.shell` with the default
`reject` (throws on failure). -/
def createTillerRBAC (readFile : String → Option String) (shell : ShellEnv)
    (templatesPath : String) (execTimeout : Nat := 30000) : Except String Unit :=
  let yamlPath := pathJoin templatesPath "/kubernetes/helm/che/tiller-rbac.yaml"
  match readFile yamlPath with
  | none => .error ("ENOENT: no such file or directory, open " ++ yamlPath)
  | some yamlContent =>
    let command := "echo \x22" ++ yamlContent ++ "\x22 | kubectl apply -f -"
    let r := shell command execTimeout
    if r.timedOut || r.code != 0 then .error ("Command failed: " ++ command)
    else .ok ()

/-- One Listr task: a title, an enablement predicate (already evaluated
against the flags, as the source's closures do), and the task body, which
receives the shared context and its own current title and yields the
(possibly updated) context and title, or throws. -/
structure TaskStep where
  title : String
  enabled : Bool
  task : PipelineCtx → String → Env → Except String (PipelineCtx × String)

/-- The body of the "Check for TLS secret prerequisites" task (helm.ts lines
36-48): fail if the `che-tls` secret is missing, fail if it lacks the
`ACME_EMAIL` field, otherwise store the field value in `ctx.tlsEmail` and
annotate the title. -/
def tlsSecretTask : PipelineCtx → String → Env → Except String (PipelineCtx × String) :=
  fun ctx title env =>
    if !env.cheTlsSecretExists then
      .error "TLS option is enabled but che-tls secret does not exist in default namespace. Example on how to create the secret: kubectl create secret generic che-tls --from-literal=ACME_EMAIL=my@email-address.com"
    else
      match env.cheTlsSecretValue with
      | none =>
        .error "TLS option is enabled and che-tls secret is defined but there is no ACME_EMAIL field on this secret. Example on how to create the secret: kubectl create secret generic che-tls --from-literal=ACME_EMAIL=my@email-address.com"
      | some tlsEmail =>
        .ok ({ ctx with tlsEmail := some tlsEmail },
             title ++ "...che-tls secret found.")

/-- Source `startTasks(flags, command)`: the ordered list of the ten pipeline
steps, each body transcribed from helm.ts lines 24-131.  `cacheDir` stands
for `command.config.cacheDir`. -/
def startTasks (flags : Flags) (cacheDir : String) : List TaskStep :=
  [ { title := "Verify if helm is installed",
      enabled := true,
      task := fun ctx title env =>
        if !env.helmCommandExists then .error "E_REQUISITE_NOT_FOUND"
        else .ok (ctx, title) },
    { title := "Check for TLS secret prerequisites",
      enabled := flags.tls,
      task := tlsSecretTask },
    { title := "Check for cert-manager",
      enabled := flags.tls,
      task := fun ctx title env =>
        if !env.certManagerApiExists then
          .error "TLS option is enabled but cert-manager API has not been found. Cert Manager is probably not installed."
        else .ok (ctx, title ++ "...done") },
    { title := "Create Tiller Role Binding",
      enabled := true,
      task := fun ctx title env => do
        let roleBindingExist ← tillerRoleBindingExist env.run
        if roleBindingExist then
          return (ctx, title ++ "...it already exist.")
        else do
          createTillerRoleBinding env.run
          return (ctx, title ++ "...done.") },
    { title := "Create Tiller Service Account",
      enabled := true,
      task := fun ctx title env => do
        let saExist ← tillerServiceAccountExist env.run
        if saExist then
          return (ctx, title ++ "...it already exist.")
        else do
          createTillerServiceAccount env.run
          return (ctx, title ++ "...done.") },
    { title := "Create Tiller RBAC",
      enabled := true,
      task := fun ctx title env => do
        createTillerRBAC env.readFile env.shell flags.templates
        return (ctx, title) },
    { title := "Create Tiller Service",
      enabled := true,
      task := fun ctx title env => do
        let svcExist ← tillerServiceExist env.run
        if svcExist then
          return (ctx, title ++ "...it already exist.")
        else do
          createTillerService env.run
          return (ctx, title ++ "...done.") },
    { title := "Preparing Che Helm Chart",
      enabled := true,
      task := fun ctx title env => do
        let _ ← (prepareCheHelmChart flags cacheDir env.mkdirpErr env.copyErr).promise
        return (ctx, title ++ "...done.") },
    { title := "Updating Helm Chart dependencies",
      enabled := true,
      task := fun ctx title env => do
        updateCheHelmChartDependencies env.shell cacheDir
        return (ctx, title ++ "...done.") },
    { title := "Deploying Che Helm Chart",
      enabled := true,
      task := fun ctx title env =>
        match (upgradeCheHelmChart ctx flags cacheDir env.helm).2 with
        | .error e => .error e.message
        | .ok _ => .ok (ctx, title ++ "...done.") } ]

/-! ## Observations on command traces -/

/-- Whether a traced command is the shell upgrade command. -/
def HelmCmd.isUpgrade : HelmCmd → Bool
  | .upgrade _ _ => true
  | _ => false

/-- Whether a traced command is the history query. -/
def HelmCmd.isHistory : HelmCmd → Bool
  | .history _ _ => true
  | _ => false

/-- Whether a traced command is a rollback. -/
def HelmCmd.isRollback : HelmCmd → Bool
  | .rollback _ _ _ => true
  | _ => false

/-- Whether a traced command is a purge (`helm delete ... --purge`). -/
def HelmCmd.isPurge : HelmCmd → Bool
  | .purge _ _ => true
  | _ => false

end Chectl

namespace Chectl

/-! ## Helper lemmas on the boolean string predicates -/

theorem listIsPre_self_append (n t : List Char) : listIsPre n (n ++ t) = true := by
  induction n with
  | nil => rfl
  | cons a as ih => simp [listIsPre, ih]

theorem listInfixB_nil_needle (h : List Char) : listInfixB [] h = true := by
  cases h <;> simp [listInfixB, listIsPre, List.isEmpty]

theorem listInfixB_self_append (n b : List Char) : listInfixB n (n ++ b) = true := by
  cases n with
  | nil => simpa using listInfixB_nil_needle b
  | cons c cs =>
    show listInfixB (c :: cs) (c :: (cs ++ b)) = true
    simp [listInfixB, listIsPre, listIsPre_self_append]

theorem listInfixB_cons (n : List Char) (c : Char) (h : List Char)
    (hh : listInfixB n h = true) : listInfixB n (c :: h) = true := by
  simp [listInfixB, hh]

theorem listInfixB_append_left (a n h : List Char)
    (hh : listInfixB n h = true) : listInfixB n (a ++ h) = true := by
  induction a with
  | nil => simpa using hh
  | cons c cs ih => simpa using listInfixB_cons n c (cs ++ h) ih

theorem listInfixB_append (a n b : List Char) : listInfixB n (a ++ (n ++ b)) = true :=
  listInfixB_append_left a n (n ++ b) (listInfixB_self_append n b)

/-- Introduction rule for `strContains`: exhibiting a decomposition of the
haystack's character list around the needle. -/
theorem strContains_intro (hay n : String) (a b : List Char)
    (h : hay.data = a ++ (n.data ++ b)) : strContains hay n = true := by
  unfold strContains
  rw [h]
  exact listInfixB_append a n.data b

theorem listIsPre_trans (a b c : List Char)
    (h₁ : listIsPre a b = true) (h₂ : listIsPre b c = true) :
    listIsPre a c = true := by
  induction a generalizing b c with
  | nil => rfl
  | cons x xs ih =>
    cases b with
    | nil => simp [listIsPre] at h₁
    | cons y ys =>
      cases c with
      | nil => simp [listIsPre] at h₂
      | cons z zs =>
        simp only [listIsPre, Bool.and_eq_true, beq_iff_eq] at h₁ h₂ ⊢
        exact ⟨h₁.1.trans h₂.1, ih ys zs h₁.2 h₂.2⟩

/-- Two prefixes of the same list are comparable. -/
theorem listIsPre_total (a b p : List Char)
    (ha : listIsPre a p = true) (hb : listIsPre b p = true) :
    listIsPre a b = true ∨ listIsPre b a = true := by
  induction p generalizing a b with
  | nil =>
    cases a with
    | nil => left; rfl
    | cons x xs => simp [listIsPre] at ha
  | cons q qs ih =>
    cases a with
    | nil => left; rfl
    | cons x xs =>
      cases b with
      | nil => right; rfl
      | cons y ys =>
        simp only [listIsPre, Bool.and_eq_true, beq_iff_eq] at ha hb ⊢
        rcases ih xs ys ha.2 hb.2 with h | h
        · left; exact ⟨ha.1.trans hb.1.symm, h⟩
        · right; exact ⟨hb.1.trans ha.1.symm, h⟩

/-! ## Claim theorems -/

/-- C7: each of the three resource-existence checks (cluster role binding,
service account, service) returns `true` exactly when its read command exits
with code 0, returns `false` for every other exit code, and never throws:
each call is equal to `Except.ok` of that boolean, for every environment and
timeout. -/
theorem tiller_existence_checks_never_throw (run : RunEnv) (t₁ t₂ t₃ : Nat) :
    tillerRoleBindingExist run t₁ =
      .ok (if (run "kubectl" ["get", "clusterrolebinding", "add-on-cluster-admin"] t₁).code = 0
           then true else false)
    ∧ tillerServiceAccountExist run t₂ =
      .ok (if (run "kubectl" ["get", "serviceaccounts", "tiller", "--namespace", "kube-system"] t₂).code = 0
           then true else false)
    ∧ tillerServiceExist run t₃ =
      .ok (if (run "kubectl" ["get", "services", "tiller-deploy", "-n", "kube-system"] t₃).code = 0
           then true else false) := by
  refine ⟨?_, ?_, ?_⟩ <;>
    · simp only [tillerRoleBindingExist, tillerServiceAccountExist, tillerServiceExist,
        execaCall, Bool.false_and, bind, Except.bind, Bool.false_eq_true, if_false]
      split <;> rfl

/-- C9 (code bug): a failing recursive copy does not make
`prepareCheHelmChart` reject.  `ncp` is callback-based and returns
`undefined`, so the `await` resolves at once: the function's promise fulfils
even when the copy fails, and the callback's `throw err` only surfaces as an
uncaught exception outside the pipeline.  The claim that every copy error is
propagated to the caller is therefore violated by the code. -/
theorem prepare_chart_swallows_copy_error (flags : Flags) (cacheDir e : String) :
    (prepareCheHelmChart flags cacheDir none (some e)).promise = Except.ok ()
    ∧ (prepareCheHelmChart flags cacheDir none (some e)).uncaught = some e :=
  ⟨rfl, rfl⟩

/-- C1: after a failed upgrade and a successfully parsed non-empty history,
the engine purges (and does not roll back) exactly when the first entry's
revision is the string "1"; otherwise it rolls back to the first entry's
revision (and does not purge). -/
theorem recovery_purges_iff_first_revision_is_string_one
    (ctx : PipelineCtx) (flags : Flags) (cacheDir : String) (env : HelmEnv)
    (entry : HistEntry) (rest : List HistEntry)
    (hfail : env.upgradeFirst.code ≠ 0)
    (hq : env.historyQuery.code = 0)
    (hp : env.parseHistory = some (entry :: rest)) :
    (entry.revision = Rev.str "1" →
        HelmCmd.purge flags.chenamespace 30000 ∈ (upgradeCheHelmChart ctx flags cacheDir env).1 ∧
        (upgradeCheHelmChart ctx flags cacheDir env).1.countP (fun c => c.isRollback) = 0) ∧
    (entry.revision ≠ Rev.str "1" →
        HelmCmd.rollback flags.chenamespace entry.revision 120000 ∈ (upgradeCheHelmChart ctx flags cacheDir env).1 ∧
        (upgradeCheHelmChart ctx flags cacheDir env).1.countP (fun c => c.isPurge) = 0) := by
  unfold upgradeCheHelmChart
  rw [if_neg hfail, hp]
  simp only [hq, bne_self_eq_false, Bool.false_eq_true, if_false]
  constructor
  · intro h1
    simp only [h1, purgeHelmChart, List.length_cons, Nat.zero_lt_succ, decide_True,
      beq_self_eq_true, Bool.and_true, Bool.true_and, if_true]
    split <;>
      simp [List.countP, List.countP.go, HelmCmd.isRollback, HelmCmd.isPurge]
  · intro h1
    have hbeq : (entry.revision == Rev.str "1") = false := by
      simpa using h1
    simp only [hbeq, Bool.and_false, Bool.false_eq_true, if_false]
    split
    · simp [List.countP, List.countP.go, HelmCmd.isRollback, HelmCmd.isPurge]
    · split <;>
        simp [List.countP, List.countP.go, HelmCmd.isRollback, HelmCmd.isPurge]

/-- Witness for C1: with history `[{revision: "1"}]` after a failed upgrade,
the purge command for the configured release is in the issued-command
trace. -/
theorem recovery_purges_iff_first_revision_is_string_one_witness :
    HelmCmd.purge "che" 30000 ∈
      (upgradeCheHelmChart ⟨none⟩ ⟨"che", "d", "i", "u1", "u2", false, false, "/tpl"⟩ "/cache"
        ⟨⟨1, "", "err", false⟩, ⟨0, "[]", "", false⟩, some [⟨Rev.str "1"⟩], "",
         ⟨0, "", "", false⟩, ⟨0, "", "", false⟩, ⟨0, "", "", false⟩⟩).1 :=
  ((recovery_purges_iff_first_revision_is_string_one ⟨none⟩
      ⟨"che", "d", "i", "u1", "u2", false, false, "/tpl"⟩ "/cache"
      ⟨⟨1, "", "err", false⟩, ⟨0, "[]", "", false⟩, some [⟨Rev.str "1"⟩], "",
       ⟨0, "", "", false⟩, ⟨0, "", "", false⟩, ⟨0, "", "", false⟩⟩
      ⟨Rev.str "1"⟩ [] (by decide) rfl rfl).1 rfl).1

/-- C2 counterexample: with an upgrade failure and a successfully parsed
empty history, no rollback command is issued at all and the engine aborts
(with the `TypeError` from reading `.revision` of `undefined`), contradicting
the claim that rollback is invoked with an absent revision and that no
earlier abort occurs. -/
theorem empty_history_rollback_claim_counterexample :
    (upgradeCheHelmChart ⟨none⟩ ⟨"che", "d", "i", "u1", "u2", false, false, "/tpl"⟩ "/cache"
        ⟨⟨1, "", "err", false⟩, ⟨0, "[]", "", false⟩, some [], "",
         ⟨0, "", "", false⟩, ⟨0, "", "", false⟩, ⟨0, "", "", false⟩⟩).2 =
      .error .typeErrorUndefinedRevision
    ∧ (upgradeCheHelmChart ⟨none⟩ ⟨"che", "d", "i", "u1", "u2", false, false, "/tpl"⟩ "/cache"
        ⟨⟨1, "", "err", false⟩, ⟨0, "[]", "", false⟩, some [], "",
         ⟨0, "", "", false⟩, ⟨0, "", "", false⟩, ⟨0, "", "", false⟩⟩).1.countP
        (fun c => c.isRollback) = 0 :=
  ⟨rfl, rfl⟩

/-- C2 (amended): when the upgrade fails, the history query succeeds and the
parsed history is the empty list, the engine aborts with the `TypeError`
raised by reading the first entry's revision; neither purge nor rollback nor
the retry is issued — the trace holds exactly the original upgrade and the
history query. -/
theorem empty_history_aborts_before_recovery
    (ctx : PipelineCtx) (flags : Flags) (cacheDir : String) (env : HelmEnv)
    (hfail : env.upgradeFirst.code ≠ 0)
    (hq : env.historyQuery.code = 0)
    (hp : env.parseHistory = some []) :
    (upgradeCheHelmChart ctx flags cacheDir env).2 = .error .typeErrorUndefinedRevision
    ∧ (upgradeCheHelmChart ctx flags cacheDir env).1 =
        [HelmCmd.upgrade (upgradeCommand ctx flags cacheDir) 120000,
         HelmCmd.history flags.chenamespace 120000] := by
  unfold upgradeCheHelmChart
  rw [if_neg hfail, hp]
  simp [hq]

/-- Witness for the amended C2 at a concrete input. -/
theorem empty_history_aborts_before_recovery_witness :
    (upgradeCheHelmChart ⟨none⟩ ⟨"ns", "d", "i", "u1", "u2", false, false, "/tpl"⟩ "/cache"
        ⟨⟨2, "", "err", false⟩, ⟨0, "[]", "", false⟩, some [], "",
         ⟨0, "", "", false⟩, ⟨0, "", "", false⟩, ⟨0, "", "", false⟩⟩).2 =
      .error .typeErrorUndefinedRevision :=
  (empty_history_aborts_before_recovery ⟨none⟩
      ⟨"ns", "d", "i", "u1", "u2", false, false, "/tpl"⟩ "/cache"
      ⟨⟨2, "", "err", false⟩, ⟨0, "[]", "", false⟩, some [], "",
       ⟨0, "", "", false⟩, ⟨0, "", "", false⟩, ⟨0, "", "", false⟩⟩
      (by decide) rfl rfl).1

/-- C4: once recovery ran (purge taken, or rollback taken and succeeded), the
trace carries exactly two upgrade invocations — the original command and its
byte-identical retry with the same timeout — exactly one history query and
exactly one purge-or-rollback; a failing retry makes the whole routine
reject with the retry error, a succeeding retry fulfils it, and in either
case no further history query, purge or rollback follows. -/
theorem retry_reissues_original_command_once
    (ctx : PipelineCtx) (flags : Flags) (cacheDir : String) (env : HelmEnv)
    (entry : HistEntry) (rest : List HistEntry)
    (hfail : env.upgradeFirst.code ≠ 0)
    (hq : env.historyQuery.code = 0)
    (hp : env.parseHistory = some (entry :: rest))
    (hrec : entry.revision = Rev.str "1" ∨
            (env.rollbackRes.timedOut = false ∧ env.rollbackRes.code = 0)) :
    (upgradeCheHelmChart ctx flags cacheDir env).1.filter (fun c => c.isUpgrade) =
      [HelmCmd.upgrade (upgradeCommand ctx flags cacheDir) 120000,
       HelmCmd.upgrade (upgradeCommand ctx flags cacheDir) 120000]
    ∧ (upgradeCheHelmChart ctx flags cacheDir env).1.countP (fun c => c.isHistory) = 1
    ∧ (upgradeCheHelmChart ctx flags cacheDir env).1.countP
        (fun c => c.isPurge || c.isRollback) = 1
    ∧ (env.retryRes.timedOut = true ∨ env.retryRes.code ≠ 0 →
        (upgradeCheHelmChart ctx flags cacheDir env).2 =
          .error (.retryFailed (upgradeCommand ctx flags cacheDir)
            env.retryRes.code env.retryRes.timedOut))
    ∧ (env.retryRes.timedOut = false ∧ env.retryRes.code = 0 →
        (upgradeCheHelmChart ctx flags cacheDir env).2 = .ok ()) := by
  unfold upgradeCheHelmChart
  rw [if_neg hfail, hp]
  simp only [hq, bne_self_eq_false, Bool.false_eq_true, if_false]
  have htrace :
      ∀ tr : List HelmCmd,
        tr = [HelmCmd.upgrade (upgradeCommand ctx flags cacheDir) 120000,
              HelmCmd.history flags.chenamespace 120000,
              purgeHelmChart flags.chenamespace,
              HelmCmd.upgrade (upgradeCommand ctx flags cacheDir) 120000] ∨
        tr = [HelmCmd.upgrade (upgradeCommand ctx flags cacheDir) 120000,
              HelmCmd.history flags.chenamespace 120000,
              HelmCmd.rollback flags.chenamespace entry.revision 120000,
              HelmCmd.upgrade (upgradeCommand ctx flags cacheDir) 120000] →
        tr.filter (fun c => c.isUpgrade) =
          [HelmCmd.upgrade (upgradeCommand ctx flags cacheDir) 120000,
           HelmCmd.upgrade (upgradeCommand ctx flags cacheDir) 120000]
        ∧ tr.countP (fun c => c.isHistory) = 1
        ∧ tr.countP (fun c => c.isPurge || c.isRollback) = 1 := by
    rintro tr (h | h) <;> subst h <;>
      refine ⟨?_, ?_, ?_⟩ <;>
      simp [List.filter, List.countP, List.countP.go, purgeHelmChart,
        HelmCmd.isUpgrade, HelmCmd.isHistory, HelmCmd.isPurge, HelmCmd.isRollback]
  by_cases hrev : entry.revision = Rev.str "1"
  · have hguard : (decide ((entry :: rest).length > 0) && entry.revision == Rev.str "1") = true := by
      simp [hrev]
    rw [if_pos hguard]
    by_cases hretry : (env.retryRes.timedOut || env.retryRes.code != 0) = true
    · rw [if_pos hretry]
      refine ⟨(htrace _ (Or.inl rfl)).1, (htrace _ (Or.inl rfl)).2.1,
        (htrace _ (Or.inl rfl)).2.2, fun _ => rfl, ?_⟩
      intro h
      exfalso
      rw [h.1, h.2] at hretry
      simp at hretry
    · rw [if_neg hretry]
      refine ⟨(htrace _ (Or.inl rfl)).1, (htrace _ (Or.inl rfl)).2.1,
        (htrace _ (Or.inl rfl)).2.2, ?_, fun _ => rfl⟩
      intro h
      exfalso
      apply hretry
      rcases h with h | h
      · simp [h]
      · simp [bne_iff_ne, h]
  · have hrb : env.rollbackRes.timedOut = false ∧ env.rollbackRes.code = 0 := by
      rcases hrec with h | h
      · exact absurd h hrev
      · exact h
    have hguard : ¬ ((decide ((entry :: rest).length > 0) && entry.revision == Rev.str "1") = true) := by
      simp [hrev]
    rw [if_neg hguard]
    have hrbc : ¬ ((env.rollbackRes.timedOut || env.rollbackRes.code != 0) = true) := by
      simp [hrb.1, hrb.2]
    rw [if_neg hrbc]
    by_cases hretry : (env.retryRes.timedOut || env.retryRes.code != 0) = true
    · rw [if_pos hretry]
      refine ⟨(htrace _ (Or.inr rfl)).1, (htrace _ (Or.inr rfl)).2.1,
        (htrace _ (Or.inr rfl)).2.2, fun _ => rfl, ?_⟩
      intro h
      exfalso
      rw [h.1, h.2] at hretry
      simp at hretry
    · rw [if_neg hretry]
      refine ⟨(htrace _ (Or.inr rfl)).1, (htrace _ (Or.inr rfl)).2.1,
        (htrace _ (Or.inr rfl)).2.2, ?_, fun _ => rfl⟩
      intro h
      exfalso
      apply hretry
      rcases h with h | h
      · simp [h]
      · simp [bne_iff_ne, h]

/-- Witness for C4 at a concrete input: purge branch taken, retry fails
with exit code 7, and the routine rejects with the retry error. -/
theorem retry_reissues_original_command_once_witness :
    (upgradeCheHelmChart ⟨none⟩ ⟨"che", "d", "i", "u1", "u2", false, false, "/tpl"⟩ "/cache"
        ⟨⟨1, "", "err", false⟩, ⟨0, "[]", "", false⟩, some [⟨Rev.str "1"⟩], "",
         ⟨0, "", "", false⟩, ⟨0, "", "", false⟩, ⟨7, "", "", false⟩⟩).2 =
      .error (.retryFailed
        (upgradeCommand ⟨none⟩ ⟨"che", "d", "i", "u1", "u2", false, false, "/tpl"⟩ "/cache")
        7 false) :=
  ((retry_reissues_original_command_once ⟨none⟩
      ⟨"che", "d", "i", "u1", "u2", false, false, "/tpl"⟩ "/cache"
      ⟨⟨1, "", "err", false⟩, ⟨0, "[]", "", false⟩, some [⟨Rev.str "1"⟩], "",
       ⟨0, "", "", false⟩, ⟨0, "", "", false⟩, ⟨7, "", "", false⟩⟩
      ⟨Rev.str "1"⟩ [] (by decide) rfl rfl (Or.inl rfl)).2.2.2.1
    (Or.inr (by decide)))

/-- C5: if the history query itself exits non-zero, the engine aborts with an
error embedding the original upgrade command line and the original upgrade's
stderr (the `stderr` in the message is the outer binding, not the query's);
if the query succeeds but its output does not parse, the engine aborts with
the parse-error message wrapping the underlying failure, and in both cases
no purge, rollback or retry is issued. -/
theorem recovery_query_and_parse_failures_abort
    (ctx : PipelineCtx) (flags : Flags) (cacheDir : String) (env : HelmEnv)
    (hfail : env.upgradeFirst.code ≠ 0) :
    (env.historyQuery.code ≠ 0 →
        (upgradeCheHelmChart ctx flags cacheDir env).2 =
          .error (.queryFailed (upgradeCommand ctx flags cacheDir) env.upgradeFirst.stderr)
        ∧ (upgradeCheHelmChart ctx flags cacheDir env).1 =
            [HelmCmd.upgrade (upgradeCommand ctx flags cacheDir) 120000,
             HelmCmd.history flags.chenamespace 120000]
        ∧ strContains
            (HelmErr.queryFailed (upgradeCommand ctx flags cacheDir)
              env.upgradeFirst.stderr).message
            (upgradeCommand ctx flags cacheDir) = true
        ∧ strContains
            (HelmErr.queryFailed (upgradeCommand ctx flags cacheDir)
              env.upgradeFirst.stderr).message
            env.upgradeFirst.stderr = true)
    ∧ (env.historyQuery.code = 0 → env.parseHistory = none →
        (upgradeCheHelmChart ctx flags cacheDir env).2 =
          .error (.parseFailed env.parseErrMsg)
        ∧ (HelmErr.parseFailed env.parseErrMsg).message =
            "Unable to grab helm history:" ++ env.parseErrMsg
        ∧ (upgradeCheHelmChart ctx flags cacheDir env).1 =
            [HelmCmd.upgrade (upgradeCommand ctx flags cacheDir) 120000,
             HelmCmd.history flags.chenamespace 120000]) := by
  constructor
  · intro hq2
    have hcond : (env.historyQuery.code != 0) = true := by simpa using hq2
    unfold upgradeCheHelmChart
    rw [if_neg hfail, if_pos hcond]
    refine ⟨rfl, rfl, ?_, ?_⟩
    · exact strContains_intro _ _ "Unable to execute helm command ".data
        (" / " ++ env.upgradeFirst.stderr).data
        (by simp [HelmErr.message, String.data_append, List.append_assoc])
    · exact strContains_intro _ _
        ("Unable to execute helm command " ++ upgradeCommand ctx flags cacheDir ++ " / ").data
        []
        (by simp [HelmErr.message, String.data_append, List.append_assoc])
  · intro hq2 hp
    unfold upgradeCheHelmChart
    rw [if_neg hfail, hp]
    simp [hq2, HelmErr.message]

/-- Witness for C5 at a concrete input: the history query exits 1 and the
routine rejects with the error embedding the original command and the
original stderr. -/
theorem recovery_query_and_parse_failures_abort_witness :
    (upgradeCheHelmChart ⟨none⟩ ⟨"che", "d", "i", "u1", "u2", false, false, "/tpl"⟩ "/cache"
        ⟨⟨1, "", "orig-stderr", false⟩, ⟨1, "", "", false⟩, none, "oops",
         ⟨0, "", "", false⟩, ⟨0, "", "", false⟩, ⟨0, "", "", false⟩⟩).2 =
      .error (.queryFailed
        (upgradeCommand ⟨none⟩ ⟨"che", "d", "i", "u1", "u2", false, false, "/tpl"⟩ "/cache")
        "orig-stderr") :=
  ((recovery_query_and_parse_failures_abort ⟨none⟩
      ⟨"che", "d", "i", "u1", "u2", false, false, "/tpl"⟩ "/cache"
      ⟨⟨1, "", "orig-stderr", false⟩, ⟨1, "", "", false⟩, none, "oops",
       ⟨0, "", "", false⟩, ⟨0, "", "", false⟩, ⟨0, "", "", false⟩⟩
      (by decide)).1 (by decide)).1

/-- C3 (code bug): the recovery machinery does not act on the release the
upgrade installs.  The upgrade command installs the release literally named
`che` (the token after `--install`), while the history query, the rollback
and the purge all receive `flags.chenamespace`; with
`chenamespace = "eclipse-che"` the two names differ, refuting the claim that
they agree for every configuration. -/
theorem recovery_release_name_mismatch :
    listIsPre "helm upgrade --install che --force --namespace ".data
      (upgradeCommand ⟨none⟩ ⟨"eclipse-che", "d", "i", "u1", "u2", false, false, "/tpl"⟩
        "/cache").data = true
    ∧ HelmCmd.history "eclipse-che" 120000 ∈
        (upgradeCheHelmChart ⟨none⟩ ⟨"eclipse-che", "d", "i", "u1", "u2", false, false, "/tpl"⟩
          "/cache"
          ⟨⟨1, "", "err", false⟩, ⟨0, "[...]", "", false⟩, some [⟨Rev.str "2"⟩], "",
           ⟨0, "", "", false⟩, ⟨0, "", "", false⟩, ⟨0, "", "", false⟩⟩).1
    ∧ HelmCmd.rollback "eclipse-che" (Rev.str "2") 120000 ∈
        (upgradeCheHelmChart ⟨none⟩ ⟨"eclipse-che", "d", "i", "u1", "u2", false, false, "/tpl"⟩
          "/cache"
          ⟨⟨1, "", "err", false⟩, ⟨0, "[...]", "", false⟩, some [⟨Rev.str "2"⟩], "",
           ⟨0, "", "", false⟩, ⟨0, "", "", false⟩, ⟨0, "", "", false⟩⟩).1
    ∧ HelmCmd.purge "eclipse-che" 30000 ∈
        (upgradeCheHelmChart ⟨none⟩ ⟨"eclipse-che", "d", "i", "u1", "u2", false, false, "/tpl"⟩
          "/cache"
          ⟨⟨1, "", "err", false⟩, ⟨0, "[...]", "", false⟩, some [⟨Rev.str "1"⟩], "",
           ⟨0, "", "", false⟩, ⟨0, "", "", false⟩, ⟨0, "", "", false⟩⟩).1
    ∧ "eclipse-che" ≠ "che" := by
  refine ⟨by decide, by decide, by decide, by decide, by decide⟩

/-- Helper: updating `multiuser` to its existing value leaves the flags
unchanged. -/
theorem flags_update_multiuser (flags : Flags) (h : flags.multiuser = false) :
    { flags with multiuser := false } = flags := by
  cases flags
  simp_all

/-- Helper: updating `tls` to its existing value leaves the flags
unchanged. -/
theorem flags_update_tls (flags : Flags) (h : flags.tls = false) :
    { flags with tls := false } = flags := by
  cases flags
  simp_all

set_option maxRecDepth 8192 in
/-- C6: the composed upgrade command contains the multi-tenant values-file
flag iff `multiuser` is set, and the TLS values-file flag together with the
TLS `--set` overrides iff `tls` is set — provided the rest of the command
does not accidentally embed those texts (the three `false` hypotheses) —
and the TLS contact email interpolated into the command is exactly the
value the TLS-secret prerequisite task wrote into the pipeline context. -/
theorem upgrade_command_flag_composition
    (ctx : PipelineCtx) (flags : Flags) (cacheDir : String)
    (hmu : strContains (upgradeCommand ctx { flags with multiuser := false } cacheDir)
             (multiUserFlagText cacheDir) = false)
    (htf : strContains (upgradeCommand ctx { flags with tls := false } cacheDir)
             (tlsFlagText cacheDir) = false)
    (hts : strContains (upgradeCommand ctx { flags with tls := false } cacheDir)
             (tlsSetOptionsText flags ctx) = false) :
    (strContains (upgradeCommand ctx flags cacheDir) (multiUserFlagText cacheDir) = true
        ↔ flags.multiuser = true)
    ∧ (strContains (upgradeCommand ctx flags cacheDir) (tlsFlagText cacheDir) = true
        ↔ flags.tls = true)
    ∧ (strContains (upgradeCommand ctx flags cacheDir) (tlsSetOptionsText flags ctx) = true
        ↔ flags.tls = true)
    ∧ (∀ (env : Env) (ctx₀ : PipelineCtx) (title : String) (ctx' : PipelineCtx) (title' : String),
        tlsSecretTask ctx₀ title env = .ok (ctx', title') →
        ∃ v, env.cheTlsSecretValue = some v ∧ ctx'.tlsEmail = some v ∧
          (flags.tls = true →
            strContains (upgradeCommand ctx' flags cacheDir)
              ("--set global.tls.email='" ++ v ++ "'") = true)) := by
  refine ⟨⟨?_, ?_⟩, ⟨?_, ?_⟩, ⟨?_, ?_⟩, ?_⟩
  · intro hcont
    by_contra hmf
    rw [Bool.not_eq_true] at hmf
    rw [flags_update_multiuser flags hmf] at hmu
    rw [hcont] at hmu
    simp at hmu
  · intro hm
    refine strContains_intro _ _
      (("helm upgrade --install che --force --namespace " ++ flags.chenamespace
        ++ " --set global.ingressDomain=" ++ flags.domain
        ++ " " ++ (if flags.tls then tlsSetOptionsText flags ctx else "")
        ++ " --set cheImage=" ++ flags.cheimage
        ++ " --set global.cheWorkspacesNamespace=" ++ flags.chenamespace
        ++ " --set che.workspace.devfileRegistryUrl=" ++ flags.devfileRegistryUrl
        ++ " --set che.workspace.pluginRegistryUrl=" ++ flags.pluginRegistryUrl
        ++ " ").data)
      ((" " ++ (if flags.tls then tlsFlagText cacheDir else "")
        ++ " " ++ chartDestDir cacheDir).data) ?_
    simp [upgradeCommand, hm, String.data_append, List.append_assoc]
  · intro hcont
    by_contra htlf
    rw [Bool.not_eq_true] at htlf
    rw [flags_update_tls flags htlf] at htf
    rw [hcont] at htf
    simp at htf
  · intro ht
    refine strContains_intro _ _
      (("helm upgrade --install che --force --namespace " ++ flags.chenamespace
        ++ " --set global.ingressDomain=" ++ flags.domain
        ++ " " ++ tlsSetOptionsText flags ctx
        ++ " --set cheImage=" ++ flags.cheimage
        ++ " --set global.cheWorkspacesNamespace=" ++ flags.chenamespace
        ++ " --set che.workspace.devfileRegistryUrl=" ++ flags.devfileRegistryUrl
        ++ " --set che.workspace.pluginRegistryUrl=" ++ flags.pluginRegistryUrl
        ++ " " ++ (if flags.multiuser then multiUserFlagText cacheDir else "")
        ++ " ").data)
      ((" " ++ chartDestDir cacheDir).data) ?_
    simp [upgradeCommand, ht, String.data_append, List.append_assoc]
  · intro hcont
    by_contra htlf
    rw [Bool.not_eq_true] at htlf
    rw [flags_update_tls flags htlf] at hts
    rw [hcont] at hts
    simp at hts
  · intro ht
    refine strContains_intro _ _
      (("helm upgrade --install che --force --namespace " ++ flags.chenamespace
        ++ " --set global.ingressDomain=" ++ flags.domain
        ++ " ").data)
      ((" --set cheImage=" ++ flags.cheimage
        ++ " --set global.cheWorkspacesNamespace=" ++ flags.chenamespace
        ++ " --set che.workspace.devfileRegistryUrl=" ++ flags.devfileRegistryUrl
        ++ " --set che.workspace.pluginRegistryUrl=" ++ flags.pluginRegistryUrl
        ++ " " ++ (if flags.multiuser then multiUserFlagText cacheDir else "")
        ++ " " ++ tlsFlagText cacheDir
        ++ " " ++ chartDestDir cacheDir).data) ?_
    simp [upgradeCommand, ht, String.data_append, List.append_assoc]
  · intro env ctx₀ title ctx' title' heval
    revert heval
    simp only [tlsSecretTask]
    cases hB : env.cheTlsSecretExists with
    | false => simp
    | true =>
      simp only [Bool.not_true, Bool.false_eq_true, if_false]
      cases hv : env.cheTlsSecretValue with
      | none => simp
      | some v =>
        intro heval
        simp only [Except.ok.injEq, Prod.mk.injEq] at heval
        refine ⟨v, rfl, ?_, ?_⟩
        · rw [← heval.1]
        · intro ht
          refine strContains_intro _ _
            (("helm upgrade --install che --force --namespace " ++ flags.chenamespace
              ++ " --set global.ingressDomain=" ++ flags.domain
              ++ " " ++ "--set global.cheDomain=" ++ flags.domain ++ " ").data)
            ((" --set cheImage=" ++ flags.cheimage
              ++ " --set global.cheWorkspacesNamespace=" ++ flags.chenamespace
              ++ " --set che.workspace.devfileRegistryUrl=" ++ flags.devfileRegistryUrl
              ++ " --set che.workspace.pluginRegistryUrl=" ++ flags.pluginRegistryUrl
              ++ " " ++ (if flags.multiuser then multiUserFlagText cacheDir else "")
              ++ " " ++ tlsFlagText cacheDir
              ++ " " ++ chartDestDir cacheDir).data) ?_
          rw [← heval.1]
          simp [upgradeCommand, tlsSetOptionsText, jsShow, ht,
            String.data_append, List.append_assoc]

/-- Witness for C6: with both `multiuser` and `tls` set and the context
email written by the TLS step, the composed command contains the
multi-tenant values-file flag. -/
theorem upgrade_command_flag_composition_witness :
    strContains
      (upgradeCommand ⟨some "a@b.c"⟩ ⟨"che", "dom.io", "img", "dr", "pr", true, true, "/tpl"⟩
        "/cache")
      (multiUserFlagText "/cache") = true :=
  (upgrade_command_flag_composition ⟨some "a@b.c"⟩
      ⟨"che", "dom.io", "img", "dr", "pr", true, true, "/tpl"⟩ "/cache"
      (by decide) (by decide) (by decide)).1.mpr rfl

/-- C8: staging never writes to the source templates tree.  Provided the
source chart directory and the staged destination directory are not nested
inside one another, every path under the source directory holds exactly its
original content after the whole staging sequence (directory creation,
recursive copy, dependency update), and the dependency-update command is the
update command applied to the destination directory alone. -/
theorem staging_preserves_source_tree
    (flags : Flags) (cacheDir : String) (newDeps : String → Option String) (fs : FS)
    (h1 : underB (pathJoin flags.templates "/kubernetes/helm/che/")
            (chartDestDir cacheDir) = false)
    (h2 : underB (chartDestDir cacheDir)
            (pathJoin flags.templates "/kubernetes/helm/che/") = false) :
    updateDependenciesCommand cacheDir =
      "helm dependencies update --skip-refresh " ++ chartDestDir cacheDir
    ∧ ∀ p, underB (pathJoin flags.templates "/kubernetes/helm/che/") p = true →
        stageChartFS flags cacheDir newDeps fs p = fs p := by
  refine ⟨rfl, ?_⟩
  intro p hp
  simp only [underB, chartDestDir] at hp h1 h2
  have hd : listIsPre (pathJoin cacheDir "/templates/kubernetes/helm/che/").data p.data = false := by
    cases hcase : listIsPre (pathJoin cacheDir "/templates/kubernetes/helm/che/").data p.data with
    | false => rfl
    | true =>
      exfalso
      rcases listIsPre_total _ _ _ hp hcase with h | h
      · rw [h] at h1; exact Bool.noConfusion h1
      · rw [h] at h2; exact Bool.noConfusion h2
  have hm : listIsPre p.data (pathJoin cacheDir "/templates/kubernetes/helm/che/").data = false := by
    cases hcase : listIsPre p.data (pathJoin cacheDir "/templates/kubernetes/helm/che/").data with
    | false => rfl
    | true =>
      exfalso
      have := listIsPre_trans _ _ _ hp hcase
      rw [this] at h1
      exact Bool.noConfusion h1
  simp only [stageChartFS, depUpdateFS, ncpFS, mkdirpFS, underB, hd, hm,
    Bool.false_and, Bool.false_eq_true, if_false]

/-- Witness for C8 at concrete directories and a concrete file system: the
chart file under the source tree is untouched by staging. -/
theorem staging_preserves_source_tree_witness :
    stageChartFS ⟨"che", "d", "i", "u1", "u2", false, false, "/tpl"⟩ "/cache"
      (fun _ => some "deps")
      (fun q => if q = "/tpl/kubernetes/helm/che/Chart.yaml" then some "chart" else none)
      "/tpl/kubernetes/helm/che/Chart.yaml" =
    (fun q => if q = "/tpl/kubernetes/helm/che/Chart.yaml" then some "chart" else none)
      "/tpl/kubernetes/helm/che/Chart.yaml" :=
  (staging_preserves_source_tree ⟨"che", "d", "i", "u1", "u2", false, false, "/tpl"⟩ "/cache"
      (fun _ => some "deps")
      (fun q => if q = "/tpl/kubernetes/helm/che/Chart.yaml" then some "chart" else none)
      (by decide) (by decide)).2
    "/tpl/kubernetes/helm/che/Chart.yaml" (by decide)

/-- Helper: binding an `Except.ok` reduces to the continuation. -/
theorem exceptBindOk {ε α β : Type} (v : α) (f : α → Except ε β) :
    (bind (Except.ok v) f : Except ε β) = f v := rfl

/-- Helper: binding an `Except.error` short-circuits. -/
theorem exceptBindErr {ε α β : Type} (e : ε) (f : α → Except ε β) :
    (bind (Except.error e) f : Except ε β) = Except.error e := rfl

/-- C10: across one pipeline run, every step other than the TLS-secret
prerequisite step returns the context it received unchanged; the TLS-secret
step, when it succeeds, changes only the `tlsEmail` key, setting it to the
secret value the cluster returned; and the pipeline does contain that step,
enabled exactly when TLS is configured. -/
theorem pipeline_context_written_only_by_tls_step
    (flags : Flags) (cacheDir : String) (env : Env) :
    (∀ st ∈ startTasks flags cacheDir,
        st.title ≠ "Check for TLS secret prerequisites" →
        ∀ (ctx : PipelineCtx) (title : String) (ctx' : PipelineCtx) (title' : String),
          st.task ctx title env = .ok (ctx', title') → ctx' = ctx)
    ∧ (∀ (ctx : PipelineCtx) (title : String) (ctx' : PipelineCtx) (title' : String),
        tlsSecretTask ctx title env = .ok (ctx', title') →
          ctx' = { ctx with tlsEmail := env.cheTlsSecretValue })
    ∧ (∃ st ∈ startTasks flags cacheDir,
        st.title = "Check for TLS secret prerequisites" ∧
        st.task = tlsSecretTask ∧ st.enabled = flags.tls) := by
  refine ⟨?_, ?_, ?_⟩
  · intro st hst
    simp only [startTasks, List.mem_cons, List.not_mem_nil, or_false] at hst
    rcases hst with rfl | rfl | rfl | rfl | rfl | rfl | rfl | rfl | rfl | rfl
    · intro _ ctx title ctx' title' heval
      dsimp only at heval
      cases hB : env.helmCommandExists <;> simp [hB] at heval
      exact heval.1.symm
    · intro hne
      exact absurd rfl hne
    · intro _ ctx title ctx' title' heval
      dsimp only at heval
      cases hB : env.certManagerApiExists <;> simp [hB] at heval
      exact heval.1.symm
    · intro _ ctx title ctx' title' heval
      dsimp only at heval
      rcases hx : tillerRoleBindingExist env.run with e | b <;>
        rw [hx] at heval
      · rw [exceptBindErr] at heval
        exact Except.noConfusion heval
      · rw [exceptBindOk] at heval
        cases b
        · rcases hy : createTillerRoleBinding env.run with e2 | u <;>
            rw [hy] at heval
          · simp only [Bool.false_eq_true, if_false, exceptBindErr] at heval
            exact Except.noConfusion heval
          · simp only [Bool.false_eq_true, if_false, exceptBindOk] at heval
            simp only [pure, Except.pure, Except.ok.injEq, Prod.mk.injEq] at heval
            exact heval.1.symm
        · simp only [if_true, pure, Except.pure, Except.ok.injEq, Prod.mk.injEq] at heval
          exact heval.1.symm
    · intro _ ctx title ctx' title' heval
      dsimp only at heval
      rcases hx : tillerServiceAccountExist env.run with e | b <;>
        rw [hx] at heval
      · rw [exceptBindErr] at heval
        exact Except.noConfusion heval
      · rw [exceptBindOk] at heval
        cases b
        · rcases hy : createTillerServiceAccount env.run with e2 | u <;>
            rw [hy] at heval
          · simp only [Bool.false_eq_true, if_false, exceptBindErr] at heval
            exact Except.noConfusion heval
          · simp only [Bool.false_eq_true, if_false, exceptBindOk] at heval
            simp only [pure, Except.pure, Except.ok.injEq, Prod.mk.injEq] at heval
            exact heval.1.symm
        · simp only [if_true, pure, Except.pure, Except.ok.injEq, Prod.mk.injEq] at heval
          exact heval.1.symm
    · intro _ ctx title ctx' title' heval
      dsimp only at heval
      rcases hx : createTillerRBAC env.readFile env.shell flags.templates with e | u <;>
        rw [hx] at heval
      · rw [exceptBindErr] at heval
        exact Except.noConfusion heval
      · rw [exceptBindOk] at heval
        simp only [pure, Except.pure, Except.ok.injEq, Prod.mk.injEq] at heval
        exact heval.1.symm
    · intro _ ctx title ctx' title' heval
      dsimp only at heval
      rcases hx : tillerServiceExist env.run with e | b <;>
        rw [hx] at heval
      · rw [exceptBindErr] at heval
        exact Except.noConfusion heval
      · rw [exceptBindOk] at heval
        cases b
        · rcases hy : createTillerService env.run with e2 | u <;>
            rw [hy] at heval
          · simp only [Bool.false_eq_true, if_false, exceptBindErr] at heval
            exact Except.noConfusion heval
          · simp only [Bool.false_eq_true, if_false, exceptBindOk] at heval
            simp only [pure, Except.pure, Except.ok.injEq, Prod.mk.injEq] at heval
            exact heval.1.symm
        · simp only [if_true, pure, Except.pure, Except.ok.injEq, Prod.mk.injEq] at heval
          exact heval.1.symm
    · intro _ ctx title ctx' title' heval
      dsimp only at heval
      rcases hx : (prepareCheHelmChart flags cacheDir env.mkdirpErr env.copyErr).promise
          with e | u <;>
        rw [hx] at heval
      · rw [exceptBindErr] at heval
        exact Except.noConfusion heval
      · rw [exceptBindOk] at heval
        simp only [pure, Except.pure, Except.ok.injEq, Prod.mk.injEq] at heval
        exact heval.1.symm
    · intro _ ctx title ctx' title' heval
      dsimp only at heval
      rcases hx : updateCheHelmChartDependencies env.shell cacheDir with e | u <;>
        rw [hx] at heval
      · rw [exceptBindErr] at heval
        exact Except.noConfusion heval
      · rw [exceptBindOk] at heval
        simp only [pure, Except.pure, Except.ok.injEq, Prod.mk.injEq] at heval
        exact heval.1.symm
    · intro _ ctx title ctx' title' heval
      dsimp only at heval
      rcases hx : (upgradeCheHelmChart ctx flags cacheDir env.helm).2 with e | u <;>
        simp only [hx] at heval
      · exact Except.noConfusion heval
      · simp only [Except.ok.injEq, Prod.mk.injEq] at heval
        exact heval.1.symm
  · intro ctx title ctx' title' heval
    revert heval
    simp only [tlsSecretTask]
    cases hB : env.cheTlsSecretExists with
    | false => simp
    | true =>
      simp only [Bool.not_true, Bool.false_eq_true, if_false]
      cases hv : env.cheTlsSecretValue with
      | none => simp
      | some v =>
        intro heval
        simp only [Except.ok.injEq, Prod.mk.injEq] at heval
        rw [← heval.1]
  · refine ⟨{ title := "Check for TLS secret prerequisites",
              enabled := flags.tls, task := tlsSecretTask }, ?_, rfl, rfl, rfl⟩
    simp [startTasks]

/-- Witness for C10: the TLS-secret step at a concrete environment writes
exactly the secret value into the context's `tlsEmail` key. -/
theorem pipeline_context_written_only_by_tls_step_witness :
    (⟨some "a@b.c"⟩ : PipelineCtx) =
      { (⟨none⟩ : PipelineCtx) with tlsEmail := some "a@b.c" } :=
  (pipeline_context_written_only_by_tls_step
      ⟨"che", "d", "i", "u1", "u2", false, true, "/tpl"⟩ "/cache"
      ⟨true, true, some "a@b.c", true, fun _ _ _ => ⟨0, "", "", false⟩,
       fun _ _ => ⟨0, "", "", false⟩, fun _ => some "yaml", none, none,
       ⟨⟨0, "", "", false⟩, ⟨0, "", "", false⟩, some [], "",
        ⟨0, "", "", false⟩, ⟨0, "", "", false⟩, ⟨0, "", "", false⟩⟩⟩).2.1
    ⟨none⟩ "t" ⟨some "a@b.c"⟩ "t...che-tls secret found." rfl

end Chectl
